import Mathlib

/-!
Verification of the kfactory layout framework core against its specification.

The development shallowly embeds the relevant parts of the source:
`kfactory/kcell.py` (ports, cells, instances, the parametric-cell cache,
the registry), `kfactory/cross_section.py`, and
`kfactory/routing/{generic,electrical}.py`.

The backend layout library (klayout `kdb`) is an external collaborator;
its simple transformation type `kdb.Trans` is modelled from the contract
stated in the specification (section 4.1 and 6): a simple transform is a
rotation by 90 degree increments together with an optional mirror flag
(mirror at the x axis applied before the rotation) and an integer
displacement.
-/

/-! ## Simple transformation algebra (`kdb.Trans` backend contract) -/

/-- Rotation of an integer vector by `a` 90 degree increments. -/
def rotVec (a : ZMod 4) (v : Int × Int) : Int × Int :=
  if a = 0 then v
  else if a = 1 then (-v.2, v.1)
  else if a = 2 then (-v.1, -v.2)
  else (v.2, -v.1)

/-- Mirror at the x axis (flips the y coordinate) when the flag is set. -/
def mirrorVec (m : Bool) (v : Int × Int) : Int × Int :=
  if m then (v.1, -v.2) else v

/-- Simple transformation: rotation in 90 degree increments, mirror flag and
integer displacement, with classic GDS semantics: mirror at the x axis first,
then rotate, then translate. -/
structure KTrans where
  rot : ZMod 4
  mirror : Bool
  dx : Int
  dy : Int
deriving DecidableEq, Repr

/-- Apply a simple transformation to a point. -/
def ktransApply (t : KTrans) (p : Int × Int) : Int × Int :=
  let q := rotVec t.rot (mirrorVec t.mirror p)
  (q.1 + t.dx, q.2 + t.dy)

/-- Composition `a * b`: apply `b` first, then `a` (klayout convention). -/
def ktransMul (a b : KTrans) : KTrans :=
  let d := rotVec a.rot (mirrorVec a.mirror (b.dx, b.dy))
  ⟨a.rot + (if a.mirror then -b.rot else b.rot), xor a.mirror b.mirror,
    d.1 + a.dx, d.2 + a.dy⟩

/-- Inverse transformation (`kdb.Trans.inverted`). -/
def ktransInv (t : KTrans) : KTrans :=
  let r : ZMod 4 := if t.mirror then t.rot else -t.rot
  let d := rotVec r (mirrorVec t.mirror (t.dx, t.dy))
  ⟨r, t.mirror, -d.1, -d.2⟩

/-- The identity transformation `kdb.Trans.R0`. -/
def ktransId : KTrans := ⟨0, false, 0, 0⟩

/-- The 180 degree rotation `kdb.Trans.R180`. -/
def ktransR180 : KTrans := ⟨2, false, 0, 0⟩

/-- Mirroring at the 90 degree (vertical) axis, `kdb.Trans.M90`. -/
def ktransM90 : KTrans := ⟨2, true, 0, 0⟩

/-- Sample transforms covering every rotation and mirror combination, with a
nontrivial displacement. -/
def ktransSamples : List KTrans :=
  [⟨0, false, 3, -5⟩, ⟨1, false, 3, -5⟩, ⟨2, false, 3, -5⟩, ⟨3, false, 3, -5⟩,
   ⟨0, true, 3, -5⟩, ⟨1, true, 3, -5⟩, ⟨2, true, 3, -5⟩, ⟨3, true, 3, -5⟩,
   ⟨1, false, 0, 0⟩, ⟨3, true, -7, 2⟩]

/-- Sample points used to validate the transformation algebra. -/
def ptSamples : List (Int × Int) := [(0, 0), (1, 0), (0, 1), (3, -2), (-4, 7)]

/-- Sanity check of the transformation model: composition applies the right
factor first, and `ktransInv` is a two-sided inverse, as for klayout
transformations (checked over every rotation and mirror combination). -/
theorem ktransModelSanity :
    (∀ t ∈ ktransSamples,
      ktransMul t (ktransInv t) = ktransId ∧ ktransMul (ktransInv t) t = ktransId) ∧
    (∀ a ∈ ktransSamples, ∀ b ∈ ktransSamples, ∀ p ∈ ptSamples,
      ktransApply (ktransMul a b) p = ktransApply a (ktransApply b p)) := by
  decide

/-! ## Ports and `Instance.connect` (`kcell.py`) -/

/-- Integer-based simple port (`kfactory.kcell.Port`): name, width and layer
in dbu, a port type string and a simple transformation. -/
structure KPort where
  name : String
  width : Int
  layer : Int
  portType : String
  trans : KTrans
deriving DecidableEq, Repr

/-- Errors raised by `Instance.connect` before any mutation. -/
inductive ConnectErr where
  | widthMismatch
  | layerMismatch
  | typeMismatch
deriving DecidableEq, Repr

/-- Shallow embedding of `Instance.connect` for simple integer ports
(`kcell.py` lines 1532-1592, branch `is_simple_port(op)`). The instance
transformation is passed in and the (possibly updated) transformation is
returned together with the raised error, if any: on a mismatch the old
transformation is returned unchanged, mirroring that the source raises
before assigning `self.instance.trans`. -/
def instanceConnect (instTrans : KTrans) (p op : KPort)
    (mirror allowWidth allowLayer allowType : Bool) : KTrans × Option ConnectErr :=
  if p.width ≠ op.width ∧ allowWidth = false then
    (instTrans, some .widthMismatch)
  else if p.layer ≠ op.layer ∧ allowLayer = false then
    (instTrans, some .layerMismatch)
  else if p.portType ≠ op.portType ∧ allowType = false then
    (instTrans, some .typeMismatch)
  else
    (ktransMul (ktransMul op.trans (if mirror then ktransM90 else ktransR180))
      (ktransInv p.trans), none)

/-- C2: for simple integer ports, `connect` with matching width, layer and
port type sets the instance transformation to
`op.trans * (M90 if mirror else R180) * invert(p.trans)`; and whenever a
width, layer or type mismatch error is raised the instance transformation is
unchanged (the checks fire before any mutation). -/
theorem instanceConnectSpec (instTrans : KTrans) (p op : KPort)
    (mirror allowWidth allowLayer allowType : Bool) :
    (p.width = op.width → p.layer = op.layer → p.portType = op.portType →
      instanceConnect instTrans p op mirror allowWidth allowLayer allowType =
        (ktransMul (ktransMul op.trans (if mirror then ktransM90 else ktransR180))
          (ktransInv p.trans), none)) ∧
    (∀ t e, instanceConnect instTrans p op mirror allowWidth allowLayer allowType =
        (t, some e) → t = instTrans) := by
  constructor
  · intro h1 h2 h3
    simp [instanceConnect, h1, h2, h3]
  · intro t e
    unfold instanceConnect
    split_ifs <;> intro h <;> simp_all

/-- Witness for C2 at a concrete pair of matching ports. -/
theorem instanceConnectSpecWitness :
    instanceConnect ktransId ⟨"o1", 500, 1, "optical", ⟨1, false, 10, 0⟩⟩
        ⟨"o2", 500, 1, "optical", ⟨3, false, 40, 20⟩⟩ false false false false =
      (⟨0, false, 30, 20⟩, none) :=
  ((instanceConnectSpec ktransId ⟨"o1", 500, 1, "optical", ⟨1, false, 10, 0⟩⟩
      ⟨"o2", 500, 1, "optical", ⟨3, false, 40, 20⟩⟩ false false false false).1
    rfl rfl rfl).trans (by decide)

/-! ## Byte streams and hashing (`kcell.py`: `IPortLike.hash`, `KCell.hash`)

SHA3-512 is a pure function of the byte stream absorbed through the
successive `h.update(...)` calls; the embedding therefore models the digest
as an arbitrary function `H` applied to the absorbed stream, and proves the
claims for every such function (in particular for the real SHA3-512). -/

/-- UTF-8 encoding of a single character (`str.encode("UTF-8")`). -/
def utf8Char (c : Char) : List Nat :=
  let n := c.toNat
  if n < 128 then [n]
  else if n < 2048 then [192 + n / 64, 128 + n % 64]
  else if n < 65536 then [224 + n / 4096, 128 + n / 64 % 64, 128 + n % 64]
  else [240 + n / 262144, 128 + n / 4096 % 64, 128 + n / 64 % 64, 128 + n % 64]

/-- UTF-8 encoding of a string. -/
def utf8Bytes (s : String) : List Nat :=
  (s.data.map utf8Char).flatten

/-- ASCII encoding with the `"ignore"` error handler
(`str.encode("ascii", "ignore")`): characters above 127 are dropped. -/
def asciiIgnoreBytes (s : String) : List Nat :=
  (s.data.filter (fun c => c.toNat < 128)).map Char.toNat

/-- Big-endian 8-byte representation (`int.to_bytes(8, "big")`; the source
only applies it to values below `2 ^ 64`, where the encoding is exact). -/
def be8 (n : Nat) : List Nat :=
  let m := n % 2 ^ 64
  [m / 2 ^ 56 % 256, m / 2 ^ 48 % 256, m / 2 ^ 40 % 256, m / 2 ^ 32 % 256,
   m / 2 ^ 24 % 256, m / 2 ^ 16 % 256, m / 2 ^ 8 % 256, m % 256]

/-- Data of a port as consumed by `IPortLike.hash`: the name, the integer
hash of the transformation reported by the backend, the width, the port type
and the layer index. -/
structure PortHashData where
  name : String
  transHash : Nat
  width : Nat
  portType : String
  layer : Nat
deriving DecidableEq, Repr

/-- The byte stream absorbed by `IPortLike.hash` (`kcell.py` lines 450-462):
the five `h.update` calls concatenate the UTF-8 name, the 8-byte big-endian
transformation hash, the 8-byte big-endian width, the UTF-8 port type and
the 8-byte big-endian layer. -/
def portHashInput (p : PortHashData) : List Nat :=
  utf8Bytes p.name ++ be8 p.transHash ++ be8 p.width ++ utf8Bytes p.portType
    ++ be8 p.layer

/-- Digest returned by `IPortLike.hash`, for a digest function `H`
(instantiated by SHA3-512 in the source). -/
def portHash (H : List Nat → List Nat) (p : PortHashData) : List Nat :=
  H (portHashInput p)

/-- C6: `port.hash()` is the SHA3-512 digest of the concatenation of the
name, the transform-hash bytes, the width, the port type and the layer; as
a consequence two ports that agree in these five attributes have equal
hashes, for any digest function, independent of any surrounding `Ports`
collection (the hash is a function of the port alone). -/
theorem portHashSpec (H : List Nat → List Nat) (p q : PortHashData) :
    (portHash H p =
      H (utf8Bytes p.name ++ be8 p.transHash ++ be8 p.width ++ utf8Bytes p.portType
        ++ be8 p.layer)) ∧
    (p.name = q.name → p.transHash = q.transHash → p.width = q.width →
      p.portType = q.portType → p.layer = q.layer → portHash H p = portHash H q) := by
  refine ⟨rfl, fun h1 h2 h3 h4 h5 => ?_⟩
  simp [portHash, portHashInput, h1, h2, h3, h4, h5]

/-- Witness for C6: two attribute-equal ports hash equally under a concrete
digest function. -/
theorem portHashSpecWitness :
    portHash id ⟨"o1", 77, 500, "optical", 1⟩ = portHash id ⟨"o1", 77, 500, "optical", 1⟩ :=
  (portHashSpec id ⟨"o1", 77, 500, "optical", 1⟩ ⟨"o1", 77, 500, "optical", 1⟩).2
    rfl rfl rfl rfl rfl

/-- Lexicographic comparison on byte strings, as Python compares `bytes`
(used by `sorted` in `KCell.hash`). -/
def bytesLe : List Nat → List Nat → Bool
  | [], _ => true
  | _ :: _, [] => false
  | a :: as, b :: bs => if a < b then true else if b < a then false else bytesLe as bs

/-- Insert into a sorted list with respect to a boolean comparison. -/
def insertSortedBy (le : α → α → Bool) (x : α) : List α → List α
  | [] => [x]
  | y :: ys => if le x y then x :: y :: ys else y :: insertSortedBy le x ys

/-- Insertion sort with respect to a boolean comparison (models `sorted`). -/
def sortListBy (le : α → α → Bool) (xs : List α) : List α :=
  xs.foldr (insertSortedBy le) []

/-- Shape hashes present on one layer of a cell: the backend hashes of the
polygon shapes and of the text shapes. -/
structure LayerShapeHashes where
  polys : List Nat
  texts : List Nat
deriving DecidableEq, Repr

/-- Data of an instance as consumed by `Instance.hash`: the digest of the
referenced cell and the transformation hash. -/
structure InstHashData where
  cellDigest : List Nat
  transHash : Nat
deriving DecidableEq, Repr

/-- The byte stream absorbed by `Instance.hash` (`kcell.py` lines 1511-1515). -/
def instHashInput (i : InstHashData) : List Nat :=
  i.cellDigest ++ be8 i.transHash

/-- Data of a cell as consumed by `KCell.hash`. -/
structure CellHashData where
  name : String
  layers : List LayerShapeHashes
  ports : List PortHashData
  insts : List InstHashData
deriving DecidableEq, Repr

/-- The byte stream absorbed by `KCell.hash` (`kcell.py` lines 1240-1254):
the ASCII name, the polygon and text shape hashes of every layer, and the
sorted port hashes. The source also computes
`insts_hashs = list(sorted(inst.hash() for inst in self.insts))` but never
feeds it to the digest, so the instances do not contribute to the stream. -/
def cellHashInput (H : List Nat → List Nat) (c : CellHashData) : List Nat :=
  asciiIgnoreBytes c.name
    ++ (c.layers.map (fun l => (l.polys.map be8).flatten ++ (l.texts.map be8).flatten)).flatten
    ++ (sortListBy bytesLe (c.ports.map (portHash H))).flatten

/-- Digest returned by `KCell.hash`, for a digest function `H`. -/
def cellHash (H : List Nat → List Nat) (c : CellHashData) : List Nat :=
  H (cellHashInput H c)

/-- C5 (divergence): in `KCell.hash` the sorted instance hashes are computed
but never absorbed into the digest, so any two cells that agree in name,
shapes and ports have the same hash regardless of their instances — for any
digest function, in particular SHA3-512. The claim that two cells differing
only in their instances have different hashes is therefore false. -/
theorem cellHashIgnoresInstances (H : List Nat → List Nat) (name : String)
    (layers : List LayerShapeHashes) (ports : List PortHashData)
    (insts1 insts2 : List InstHashData) :
    cellHash H ⟨name, layers, ports, insts1⟩ = cellHash H ⟨name, layers, ports, insts2⟩ :=
  rfl

/-! ## Locked cells and mutators (`kcell.py`: `KCell`) -/

/-- An instance entry held in `KCell.insts`: the referenced cell index and
the placement transformation (`Instance`). -/
structure KInst where
  cellIdx : Nat
  trans : KTrans
deriving DecidableEq, Repr

/-- Mutable state of a `KCell` relevant to the locking discipline: the port
list, the instance list and the `_locked` flag (set by the `autocell`
decorator after publication). -/
structure KCellState where
  name : String
  ports : List KPort
  insts : List KInst
  locked : Bool
deriving DecidableEq, Repr

/-- Shallow embedding of `KCell.create_inst` (`kcell.py` lines 1186-1199):
the instance is inserted and appended unconditionally; the source contains
no check of `_locked` and no code path that raises `FrozenError`, so the
function is total. -/
def kcellCreateInst (c : KCellState) (cellIdx : Nat) (t : KTrans) :
    KCellState × KInst :=
  let inst : KInst := ⟨cellIdx, t⟩
  ({ c with insts := c.insts ++ [inst] }, inst)

/-- Shallow embedding of `Ports.create_port` via `KCell.create_port`
(`kcell.py` lines 1146-1148 and 1732-1766, `trans` overload): the port is
appended unconditionally; no `_locked` check, no duplicate-name check. -/
def kcellCreatePort (c : KCellState) (p : KPort) : KCellState :=
  { c with ports := c.ports ++ [p] }

/-- Shallow embedding of `KCell.add_port` for an integer-based port
(`kcell.py` lines 1150-1159 and `Ports.add_port` lines 1693-1705): raises
`ValueError` on a duplicate name, appends otherwise; no `_locked` check. -/
def kcellAddPort (c : KCellState) (p : KPort) (newName : Option String) :
    Except String KCellState :=
  let p' := { p with name := newName.getD p.name }
  if (c.ports.map KPort.name).contains p'.name then
    .error "Port hase already been added to this cell"
  else
    .ok { c with ports := c.ports ++ [p'] }

/-- C1 (divergence): the mutators of a locked `KCell` do not raise
`FrozenError` and do mutate the cell. `FrozenError` is defined
(`kcell.py` lines 124-127) but no mutator consults `_locked`: on a locked
cell `create_inst` appends an instance, `create_port` appends a port and
`add_port` with a fresh name succeeds, each leaving `locked` unchanged.
The claim that any mutation of a locked cell raises a Frozen error and
leaves the cell unchanged is therefore false on the code. -/
theorem kcellLockedMutationSucceeds :
    (kcellCreateInst ⟨"locked", [], [], true⟩ 7 ktransId).1 =
      ⟨"locked", [], [⟨7, ktransId⟩], true⟩ ∧
    kcellCreatePort ⟨"locked", [], [], true⟩ ⟨"o1", 500, 1, "optical", ktransId⟩ =
      ⟨"locked", [⟨"o1", 500, 1, "optical", ktransId⟩], [], true⟩ ∧
    kcellAddPort ⟨"locked", [], [], true⟩ ⟨"o1", 500, 1, "optical", ktransId⟩ none =
      .ok ⟨"locked", [⟨"o1", 500, 1, "optical", ktransId⟩], [], true⟩ := by
  exact ⟨rfl, rfl, rfl⟩

/-! ## Cell registry (`kcell.py`: `KLib.create_cell`) -/

/-- State of a `KLib`: the names of the cells existing in the backend
`Layout`, and the `kcells` registry mapping names to registered cell ids. -/
structure KLibState where
  backendCells : List String
  kcells : List (String × Nat)
deriving DecidableEq, Repr

/-- Assignment into a Python dict (`self.kcells[name] = kcell`): overwrite an
existing binding, append a fresh one otherwise. -/
def dictAssign (l : List (String × Nat)) (k : String) (v : Nat) : List (String × Nat) :=
  if l.any (fun e => e.1 = k) then
    l.map (fun e => if e.1 = k then (k, v) else e)
  else l ++ [(k, v)]

/-- Search for the first free `name$i` suffix starting at `i`, with enough
fuel to try more candidates than there are existing cells. -/
def freshSuffix (cells : List String) (name : String) : Nat → Nat → String
  | 0, i => name ++ "$" ++ toString i
  | fuel + 1, i =>
    let cand := name ++ "$" ++ toString i
    if cand ∈ cells then freshSuffix cells name fuel (i + 1) else cand

/-- Modelled from the spec: the backend `klayout.db.Layout.create_cell` is
external to the repository; per the specification and the docstring of
`KLib.create_cell`, a creation under an existing name yields a cell named
`name$1`, `name$2`, ... increasing with the number of existing duplicates. -/
def backendCreateCell (cells : List String) (name : String) : String × List String :=
  if name ∈ cells then
    let newName := freshSuffix cells name (cells.length + 1) 1
    (newName, cells ++ [newName])
  else (name, cells ++ [name])

/-- Shallow embedding of `KLib.create_cell` (`kcell.py` lines 155-185): when
`allow_duplicate` is set or no backend cell has the requested name, the
kcell is registered under the requested name and the backend creates the
cell (assigning a `$k` suffix on a duplicate); otherwise a `ValueError` is
raised and nothing is created or registered. -/
def klibCreateCell (lib : KLibState) (kcellId : Nat) (name : String)
    (allowDuplicate : Bool) : Except String (String × KLibState) :=
  if allowDuplicate = true ∨ name ∉ lib.backendCells then
    let r := backendCreateCell lib.backendCells name
    .ok (r.1, ⟨r.2, dictAssign lib.kcells name kcellId⟩)
  else
    .error "Cellname already exists. Please make sure the cellname is unique or pass allow duplicate when creating the library"

theorem freshSuffix_shape (cells : List String) (name : String) :
    ∀ fuel i, ∃ k, i ≤ k ∧ freshSuffix cells name fuel i = name ++ "$" ++ toString k := by
  intro fuel
  induction fuel with
  | zero => exact fun i => ⟨i, le_refl i, rfl⟩
  | succ n ih =>
    intro i
    unfold freshSuffix
    by_cases h : (name ++ "$" ++ toString i) ∈ cells
    · obtain ⟨k, hk, he⟩ := ih (i + 1)
      exact ⟨k, by omega, by simp only [if_pos h]; exact he⟩
    · exact ⟨i, le_refl i, by simp only [if_neg h]⟩

/-- C4 (counterexample): with `allow_duplicate` unset, a cell-creation call
whose requested name collides with an existing backend cell raises a
`ValueError` and the registry state is unchanged — the cell is *not* created
under a `$1` suffix as the claim states. -/
theorem klibCreateCellCollisionCex :
    klibCreateCell ⟨["foo"], [("foo", 0)]⟩ 1 "foo" false =
      .error "Cellname already exists. Please make sure the cellname is unique or pass allow duplicate when creating the library" := by
  rfl

/-- C4 (amended): on a name collision with `allow_duplicate` unset,
`KLib.create_cell` raises a `ValueError` and creates and registers nothing;
with `allow_duplicate=true` the cell is created, the backend assigns a fresh
name of the form `name$k` (`k ≥ 1`), and the kcell is registered under the
requested name. -/
theorem klibCreateCellAmended (lib : KLibState) (kcellId : Nat) (name : String) :
    (name ∈ lib.backendCells →
      klibCreateCell lib kcellId name false =
        .error "Cellname already exists. Please make sure the cellname is unique or pass allow duplicate when creating the library") ∧
    (name ∈ lib.backendCells →
      ∃ k, 1 ≤ k ∧
        klibCreateCell lib kcellId name true =
          .ok (name ++ "$" ++ toString k,
            ⟨lib.backendCells ++ [name ++ "$" ++ toString k],
              dictAssign lib.kcells name kcellId⟩)) := by
  constructor
  · intro h
    simp [klibCreateCell, h]
  · intro h
    obtain ⟨k, hk, he⟩ :=
      freshSuffix_shape lib.backendCells name (lib.backendCells.length + 1) 1
    refine ⟨k, hk, ?_⟩
    simp only [klibCreateCell, backendCreateCell, if_pos h]
    rw [he]
    simp

/-- Witness for C4 at a concrete registry with a colliding name. -/
theorem klibCreateCellAmendedWitness :
    klibCreateCell ⟨["foo"], [("foo", 0)]⟩ 2 "foo" false =
      .error "Cellname already exists. Please make sure the cellname is unique or pass allow duplicate when creating the library" ∧
    (∃ k, 1 ≤ k ∧
      klibCreateCell ⟨["foo"], [("foo", 0)]⟩ 2 "foo" true =
        .ok ("foo" ++ "$" ++ toString k,
          ⟨["foo"] ++ ["foo" ++ "$" ++ toString k], dictAssign [("foo", 0)] "foo" 2⟩)) :=
  ⟨(klibCreateCellAmended ⟨["foo"], [("foo", 0)]⟩ 2 "foo").1 (by decide),
    (klibCreateCellAmended ⟨["foo"], [("foo", 0)]⟩ 2 "foo").2 (by decide)⟩

/-! ## Cross sections (`cross_section.py`: `SymmetricalCrossSection`) -/

/-- A successfully constructed `SymmetricalCrossSection`: validated width,
the main layer of its enclosure and its name. -/
structure SymmetricalCrossSectionData where
  width : Int
  mainLayer : Nat
  name : String
deriving DecidableEq, Repr

/-- Shallow embedding of the `SymmetricalCrossSection` constructor
(`cross_section.py` lines 29-76). Pydantic first applies the before
validator `_set_name` (Python `or`, so an absent or empty name falls back to
`enclosure.name + "_" + width`), then the after validators in declaration
order: `_validate_enclosure_main_layer` (main layer present, `(width // 2)
* 2 == width`, with Python floor division) and `_validate_width`
(`width > 0`). -/
def mkSymmetricalCrossSection (width : Int) (enclosureName : String)
    (mainLayer : Option Nat) (name : Option String) :
    Except String SymmetricalCrossSectionData :=
  let defaultName := enclosureName ++ "_" ++ toString width
  let name' := match name with
    | some s => if s = "" then defaultName else s
    | none => defaultName
  match mainLayer with
  | none => .error "Enclosures of cross sections must have a main layer."
  | some ml =>
    if (Int.fdiv width 2) * 2 ≠ width then
      .error "Width of symmetrical cross sections must have be a multiple of 2."
    else if width ≤ 0 then
      .error "Width must be greater than 0."
    else
      .ok ⟨width, ml, name'⟩

theorem fdiv_two_mul_two_eq_iff (w : Int) : (Int.fdiv w 2) * 2 = w ↔ 2 ∣ w := by
  rw [Int.fdiv_eq_ediv _ (by norm_num)]
  omega

/-- C9: constructing a `SymmetricalCrossSection` with a width that is not
positive or not a multiple of 2 raises a `ValueError` and produces no cross
section; every successfully constructed cross section has an even, positive
width. -/
theorem crossSectionWidthValidation :
    (∀ (w : Int) (en : String) (ml : Option Nat) (nm : Option String),
      w ≤ 0 ∨ ¬ 2 ∣ w →
        ∃ e, mkSymmetricalCrossSection w en ml nm = .error e) ∧
    (∀ (w : Int) (en : String) (ml : Option Nat) (nm : Option String)
        (s : SymmetricalCrossSectionData),
      mkSymmetricalCrossSection w en ml nm = .ok s →
        0 < s.width ∧ 2 ∣ s.width) := by
  constructor
  · intro w en ml nm h
    match ml with
    | none => exact ⟨_, rfl⟩
    | some l =>
      simp only [mkSymmetricalCrossSection]
      by_cases h2 : (Int.fdiv w 2) * 2 ≠ w
      · rw [if_pos h2]
        exact ⟨_, rfl⟩
      · rw [if_neg h2]
        push_neg at h2
        rw [fdiv_two_mul_two_eq_iff] at h2
        have hw : w ≤ 0 := by tauto
        rw [if_pos hw]
        exact ⟨_, rfl⟩
  · intro w en ml nm s hok
    match ml with
    | none => exact absurd hok (by simp [mkSymmetricalCrossSection])
    | some l =>
      simp only [mkSymmetricalCrossSection] at hok
      by_cases h2 : (Int.fdiv w 2) * 2 ≠ w
      · rw [if_pos h2] at hok
        exact absurd hok (by simp)
      · rw [if_neg h2] at hok
        by_cases hw : w ≤ 0
        · rw [if_pos hw] at hok
          exact absurd hok (by simp)
        · rw [if_neg hw] at hok
          have hs : s.width = w := by
            cases hok
            rfl
          push_neg at h2
          rw [fdiv_two_mul_two_eq_iff] at h2
          constructor
          · omega
          · rw [hs]
            exact h2

/-- Witness for C9: an odd width is rejected, a negative even width is
rejected, and a valid construction yields an even positive width. -/
theorem crossSectionWidthValidationWitness :
    (∃ e, mkSymmetricalCrossSection 501 "WG" (some 1) none = .error e) ∧
    (∃ e, mkSymmetricalCrossSection (-4) "WG" (some 1) none = .error e) ∧
    (∀ s, mkSymmetricalCrossSection 500 "WG" (some 1) none = .ok s →
      0 < s.width ∧ 2 ∣ s.width) :=
  ⟨(crossSectionWidthValidation.1 501 "WG" (some 1) none (by decide)),
   (crossSectionWidthValidation.1 (-4) "WG" (some 1) none (by decide)),
   fun s h => (crossSectionWidthValidation.2 500 "WG" (some 1) none s h)⟩

/-! ## Routing (`routing/generic.py` and `routing/electrical.py`) -/

/-- Integer point of a route backbone (`kdb.Point`). -/
abbrev RPt := Int × Int

/-- Port as consumed by the generic router: name, width in dbu, the layer
info and the simple transformation. -/
structure RPort where
  name : String
  width : Int
  layerInfo : Nat
  trans : KTrans
deriving DecidableEq, Repr

/-- Router steps (`routing/steps.py` grammar, the constructors used by
`route_bundle` normalization). -/
inductive RStep where
  | straight (dist : Int)
  | left (radius : Int)
  | right (radius : Int)
deriving DecidableEq, Repr

/-- Result of the routing function: a `ManhattanRouter` with its start-side
backbone points, width and the transformations of the two ports it serves. -/
structure MRouter where
  startPts : List RPt
  width : Int
  startTransformation : KTrans
  endTransformation : KTrans
deriving DecidableEq, Repr

/-- A placed `ManhattanRoute`: the backbone, the `length_straights` field and
the inserted polygons, abstracted per layer as `(layer info, polygon count)`. -/
structure MRoute where
  backbone : List RPt
  lengthStraights : Nat
  polygons : List (Nat × Nat)
deriving DecidableEq, Repr

/-- Error policies `"error" | "show_error" | None` of `route_bundle`. -/
inductive ErrPolicy where
  | silent
  | raiseError
  | showError
deriving DecidableEq, Repr

/-- Errors that `route_bundle` can raise. -/
inductive RouteErr where
  | valueErr (msg : String)
  | keyErr
  | placerErr
  | collisionErr (msg : String)
deriving DecidableEq, Repr

/-- A placer function: ports, backbone points, result or `ValueError`. -/
abbrev PlacerFn := RPort → RPort → List RPt → Except String MRoute

/-- Squared Euclidean length of the segment from `p` to `q`. -/
def segLenSq (p q : RPt) : Int := (q.1 - p.1) ^ 2 + (q.2 - p.2) ^ 2

/-- The length loop of `place_single_wire` (`electrical.py` lines 649-652
with the final `round`): the backend computes each segment length as a
floating-point square root and the result is rounded. For backbones whose
per-segment squared length is a perfect square — in particular every
axis-aligned Manhattan segment — the floating computation is exact and
equals this integer square root sum. -/
def sumSegLens : List RPt → Nat
  | p :: q :: rest => Nat.sqrt (segLenSq p q).toNat + sumSegLens (q :: rest)
  | _ => 0

/-- Shallow embedding of `place_single_wire` (`electrical.py` lines
611-664): defaults from the start port, rejection of stray kwargs, one
polygon inserted on the layer, and `length_straights` from the backbone;
`pts[0]` raises `IndexError` on an empty backbone. -/
def placeSingleWire (p1 p2 : RPort) (pts : List RPt)
    (routeWidth : Option Int) (layerInfo : Option Nat) (extraKwargs : Bool) :
    Except String MRoute :=
  let li := layerInfo.getD p1.layerInfo
  let _rw := routeWidth.getD p1.width
  if extraKwargs then
    .error "Additional kwargs arent supported in route_single_wire"
  else
    match pts with
    | [] => .error "IndexError: list index out of range"
    | _ :: _ => .ok ⟨pts, sumSegLens pts, [(li, 1)]⟩

/-- Shallow embedding of `place_dual_rails` (`electrical.py` lines 667-722):
stray kwargs are rejected, the rail separation must be given and strictly
smaller than the route width, and two polygons are inserted on the layer. -/
def placeDualRails (p1 p2 : RPort) (pts : List RPt)
    (routeWidth : Option Int) (layerInfo : Option Nat)
    (separationRails : Option Int) (extraKwargs : Bool) :
    Except String MRoute :=
  if extraKwargs then
    .error "Additional kwargs arent supported in route_dual_rails"
  else
    let li := layerInfo.getD p1.layerInfo
    let rw := routeWidth.getD p1.width
    match separationRails with
    | none => .error "Must specify a separation between the two rails."
    | some sep =>
      if sep ≥ rw then
        .error "separation_rails must be smaller than the route_width"
      else
        .ok ⟨pts, 0, [(li, 2)]⟩

/-- Normalization of the `starts`/`ends` argument of `route_bundle`
(`generic.py` lines 431-451): `None` or an empty list become empty step
lists, a scalar becomes one straight per port, a list of scalars becomes one
straight each, a step list is replicated for every port, and a
list of lists is taken per port. -/
inductive StepsArg where
  | noSteps
  | scalar (d : Int)
  | scalars (ds : List Int)
  | stepList (s : List RStep)
  | perPort (s : List (List RStep))
deriving DecidableEq, Repr

def normSteps (arg : StepsArg) (length : Nat) : List (List RStep) :=
  match arg with
  | .noSteps => List.replicate length []
  | .scalar d => List.replicate length [.straight d]
  | .scalars [] => List.replicate length []
  | .scalars ds => ds.map (fun d => [.straight d])
  | .stepList [] => List.replicate length []
  | .stepList s => List.replicate length s
  | .perPort [] => List.replicate length []
  | .perPort s => s

/-- Modelled from the spec: `ProtoPort.copy` is not part of the sources, and
per the specification the angle overrides are rotations applied to the port
in place before routing; `p.copy(post_trans=kdb.Trans(a - p.trans.angle))`
composes the rotation to the requested angle after the port transform. -/
def setPortAngle (p : RPort) (a : Int) : RPort :=
  { p with trans := ktransMul p.trans ⟨(a : ZMod 4) - p.trans.rot, false, 0, 0⟩ }

/-- Normalization of `start_angles` (`generic.py` lines 453-468): a scalar
rotates every port, a list rotates each port and must match the port count. -/
def applyStartAngles (angles : Option (Int ⊕ List Int)) (ports : List RPort) :
    Except RouteErr (List RPort) :=
  match angles with
  | none => .ok ports
  | some (.inl a) => .ok (ports.map (fun p => setPortAngle p a))
  | some (.inr as) =>
    if as.length = ports.length then
      .ok ((as.zip ports).map (fun x => setPortAngle x.2 x.1))
    else
      .error (.valueErr "If more than one end port should be rotated, a rotation for all ports must be provided.")

/-- Normalization of `end_angles` (`generic.py` lines 470-485). The source
zips the per-port rotation list with `start_ports_`, not with the end
ports — reproduced faithfully here. -/
def applyEndAngles (angles : Option (Int ⊕ List Int)) (endPorts startPorts : List RPort) :
    Except RouteErr (List RPort) :=
  match angles with
  | none => .ok endPorts
  | some (.inl a) => .ok (endPorts.map (fun p => setPortAngle p a))
  | some (.inr as) =>
    if as.length = endPorts.length then
      .ok ((as.zip startPorts).map (fun x => setPortAngle x.2 x.1))
    else
      .error (.valueErr "If more than one end port should be rotated, a rotation for all ports must be provided.")

/-- Width normalization (`generic.py` lines 487-493), including the Python
truthiness of `if route_width:` (`0` and `[]` fall back to port widths). -/
def routeWidths (routeWidth : Option (Int ⊕ List Int)) (startPorts : List RPort) :
    List Int :=
  match routeWidth with
  | some (.inl w) =>
    if w ≠ 0 then List.replicate startPorts.length w else startPorts.map RPort.width
  | some (.inr ws) =>
    if ws ≠ [] then ws else startPorts.map RPort.width
  | none => startPorts.map RPort.width

/-- Lookup of a port by its transformation: the source builds a dict keyed
by transformation, where a later port overwrites an earlier one. -/
def findPortByTrans (ports : List RPort) (t : KTrans) : Option RPort :=
  ports.reverse.find? (fun p => p.trans = t)

/-- The per-route placer loop of `route_bundle` (`generic.py` lines
527-541): every route is attempted; successful routes are collected in
order and the exceptions of the failing ones are collected in order. -/
def placeAll (placer : PlacerFn) :
    List (MRouter × RPort × RPort) → List MRoute × List String
  | [] => ([], [])
  | t :: rest =>
    let r := placer t.2.1 t.2.2 t.1.startPts
    let pr := placeAll placer rest
    match r with
    | .ok route => (route :: pr.1, pr.2)
    | .error e => (pr.1, e :: pr.2)

/-- The placer phase of `route_bundle` (`generic.py` lines 527-566): drain
all routes, then raise a single `PlacerError` if any placer failed and the
policy is not `None` (after reporting when it is `"show_error"`). -/
def placerPhase (policy : ErrPolicy) (placer : PlacerFn)
    (triples : List (MRouter × RPort × RPort)) : Except RouteErr (List MRoute) :=
  let pr := placeAll placer triples
  if pr.2 ≠ [] ∧ policy ≠ .silent then .error .placerErr else .ok pr.1

/-- Shallow embedding of `route_bundle` (`generic.py` lines 280-577). The
routing function, the optional post-process function and the collision
check are taken as parameters, as the source takes them. -/
def routeBundle
    (routingF : List RPort → List RPort → List Int → List (List RStep) →
      List (List RStep) → List MRouter)
    (placerF : PlacerFn)
    (postF : Option (List MRouter → List MRouter))
    (collisionF : ErrPolicy → List MRouter → List MRoute → Except RouteErr Unit)
    (startPorts endPorts : List RPort)
    (routeWidth : Option (Int ⊕ List Int))
    (onCollision onPlacerError : ErrPolicy)
    (starts ends : StepsArg)
    (startAngles endAngles : Option (Int ⊕ List Int)) :
    Except RouteErr (List MRoute) :=
  if startPorts = [] then .ok []
  else if startPorts.length ≠ endPorts.length then
    .error (.valueErr "For bundle routing the input port list must have the same size as the end ports and be the same length.")
  else
    match applyStartAngles startAngles startPorts with
    | .error e => .error e
    | .ok startPorts1 =>
      match applyEndAngles endAngles endPorts startPorts1 with
      | .error e => .error e
      | .ok endPorts1 =>
        let n := startPorts1.length
        let starts1 := normSteps starts n
        let ends1 := normSteps ends n
        let widths := routeWidths routeWidth startPorts1
        let routers := routingF startPorts1 endPorts1 widths starts1 ends1
        if routers = [] then .ok []
        else
          match routers.mapM (fun r =>
            match findPortByTrans startPorts1 r.startTransformation,
                findPortByTrans endPorts1 r.endTransformation with
            | some sp, some ep => Except.ok (sp, ep)
            | _, _ => Except.error RouteErr.keyErr) with
          | .error e => .error e
          | .ok pairs =>
            let routers2 := match postF with
              | none => routers
              | some f => f routers
            let triples := (routers2.zip pairs).map (fun x => (x.1, x.2.1, x.2.2))
            match placerPhase onPlacerError placerF triples with
            | .error e => .error e
            | .ok routes =>
              match collisionF onCollision routers2 routes with
              | .error e => .error e
              | .ok _ => .ok routes

/-- The successful route of a placer result, if any. -/
def exceptOkRoute : Except String MRoute → Option MRoute
  | .ok r => some r
  | .error _ => none

/-- The exception message of a placer result, if any. -/
def exceptErrMsg : Except String MRoute → Option String
  | .ok _ => none
  | .error e => some e

theorem placeAll_fst (placer : PlacerFn) :
    ∀ triples : List (MRouter × RPort × RPort),
      (placeAll placer triples).1 =
        triples.filterMap (fun t => exceptOkRoute (placer t.2.1 t.2.2 t.1.startPts))
  | [] => rfl
  | t :: rest => by
    simp only [placeAll, List.filterMap_cons]
    cases h : placer t.2.1 t.2.2 t.1.startPts <;>
      simp [exceptOkRoute, h, placeAll_fst placer rest]

theorem placeAll_snd (placer : PlacerFn) :
    ∀ triples : List (MRouter × RPort × RPort),
      (placeAll placer triples).2 =
        triples.filterMap (fun t => exceptErrMsg (placer t.2.1 t.2.2 t.1.startPts))
  | [] => rfl
  | t :: rest => by
    simp only [placeAll, List.filterMap_cons]
    cases h : placer t.2.1 t.2.2 t.1.startPts <;>
      simp [exceptErrMsg, h, placeAll_snd placer rest]

/-- C7: the placer phase of `route_bundle` collects placer errors per route:
the placer is invoked for every route (the successes are exactly the
successful routes in order, the collected errors are exactly the failures in
order), the phase raises a single `PlacerError` under policy `"error"`
exactly when some route failed — only after all routes have been drained —
and the dual-rail placer fails whenever `separation_rails >= route_width`. -/
theorem routeBundlePlacerDrains (placer : PlacerFn)
    (triples : List (MRouter × RPort × RPort)) :
    ((placeAll placer triples).1 =
      triples.filterMap (fun t => exceptOkRoute (placer t.2.1 t.2.2 t.1.startPts))) ∧
    ((placeAll placer triples).2 =
      triples.filterMap (fun t => exceptErrMsg (placer t.2.1 t.2.2 t.1.startPts))) ∧
    (placerPhase .raiseError placer triples = .error .placerErr ↔
      ∃ t ∈ triples, ∃ e, placer t.2.1 t.2.2 t.1.startPts = .error e) ∧
    (∀ (p1 p2 : RPort) (pts : List RPt) (rw : Int) (li : Option Nat) (sep : Int),
      rw ≤ sep →
        placeDualRails p1 p2 pts (some rw) li (some sep) false =
          .error "separation_rails must be smaller than the route_width") := by
  refine ⟨placeAll_fst placer triples, placeAll_snd placer triples, ?_, ?_⟩
  · simp only [placerPhase, placeAll_snd placer triples]
    by_cases he :
        triples.filterMap (fun t => exceptErrMsg (placer t.2.1 t.2.2 t.1.startPts)) = []
    · rw [if_neg (by simp [he])]
      constructor
      · intro h
        exact Except.noConfusion h
      · rintro ⟨t, ht, e, hee⟩
        rw [List.filterMap_eq_nil_iff] at he
        have h2 := he t ht
        rw [hee] at h2
        exact Option.noConfusion h2
    · rw [if_pos ⟨he, by simp⟩]
      constructor
      · intro _
        rw [List.filterMap_eq_nil_iff] at he
        push_neg at he
        obtain ⟨t, ht, hne⟩ := he
        refine ⟨t, ht, ?_⟩
        cases hp : placer t.2.1 t.2.2 t.1.startPts with
        | ok r =>
          rw [hp] at hne
          exact absurd rfl hne
        | error e => exact ⟨e, rfl⟩
      · intro _
        rfl
  · intro p1 p2 pts rw li sep hle
    unfold placeDualRails
    rw [if_neg (by simp)]
    simp only [Option.getD_some]
    rw [if_pos (by omega)]

/-- Witness for C7: the dual-rail placer with `route_width=1000` and
`separation_rails=2000` fails, and a one-route phase under policy `"error"`
raises `PlacerError`. -/
theorem routeBundlePlacerDrainsWitness :
    placeDualRails ⟨"e1", 1000, 3, ktransId⟩ ⟨"e2", 1000, 3, ktransId⟩ [(0, 0)]
        (some 1000) none (some 2000) false =
      .error "separation_rails must be smaller than the route_width" ∧
    placerPhase .raiseError
        (fun a b pts => placeDualRails a b pts (some 1000) none (some 2000) false)
        [(⟨[(0, 0)], 1000, ktransId, ktransId⟩, ⟨"e1", 1000, 3, ktransId⟩,
          ⟨"e2", 1000, 3, ktransId⟩)] =
      .error .placerErr := by
  constructor
  · exact (routeBundlePlacerDrains (fun a b pts => .ok ⟨pts, 0, []⟩) []).2.2.2
      ⟨"e1", 1000, 3, ktransId⟩ ⟨"e2", 1000, 3, ktransId⟩ [(0, 0)] 1000 none 2000
      (by omega)
  · exact (routeBundlePlacerDrains
        (fun a b pts => placeDualRails a b pts (some 1000) none (some 2000) false)
        [(⟨[(0, 0)], 1000, ktransId, ktransId⟩, ⟨"e1", 1000, 3, ktransId⟩,
          ⟨"e2", 1000, 3, ktransId⟩)]).2.2.1.mpr
      ⟨_, List.mem_singleton.mpr rfl,
        "separation_rails must be smaller than the route_width", rfl⟩

/-- Axis-aligned segment: the two points share an x or a y coordinate. -/
def manhattanSeg (p q : RPt) : Prop := p.1 = q.1 ∨ p.2 = q.2

instance manhattanSegDecidable : ∀ p q : RPt, Decidable (manhattanSeg p q) :=
  fun p q => inferInstanceAs (Decidable (p.1 = q.1 ∨ p.2 = q.2))

/-- The Euclidean length sum of an axis-aligned backbone: for an
axis-aligned segment, the Euclidean norm equals `natAbs dx + natAbs dy`
(one of the two summands vanishes). -/
def eucSumManhattan : List RPt → Nat
  | p :: q :: rest => ((q.1 - p.1).natAbs + (q.2 - p.2).natAbs) + eucSumManhattan (q :: rest)
  | _ => 0

theorem int_sqrt_sq (d : Int) : Nat.sqrt ((d ^ 2).toNat) = d.natAbs := by
  have h : (d ^ 2).toNat = d.natAbs * d.natAbs := by
    rw [pow_two, ← Int.natAbs_mul_self, Int.toNat_natCast]
  rw [h, Nat.sqrt_eq]

theorem sumSegLens_manhattan :
    ∀ pts : List RPt, List.Chain' manhattanSeg pts →
      sumSegLens pts = eucSumManhattan pts
  | [], _ => rfl
  | [_], _ => rfl
  | p :: q :: rest, h => by
    obtain ⟨h1, h2⟩ := List.chain'_cons.mp h
    have hseg : Nat.sqrt (segLenSq p q).toNat =
        (q.1 - p.1).natAbs + (q.2 - p.2).natAbs := by
      rcases h1 with h1 | h1
      · have hx : segLenSq p q = (q.2 - p.2) ^ 2 := by
          unfold segLenSq
          rw [h1]
          ring
        rw [hx, int_sqrt_sq, h1]
        simp
      · have hy : segLenSq p q = (q.1 - p.1) ^ 2 := by
          unfold segLenSq
          rw [h1]
          ring
        rw [hy, int_sqrt_sq, h1]
        simp
    show Nat.sqrt (segLenSq p q).toNat + sumSegLens (q :: rest) = _
    rw [hseg, sumSegLens_manhattan (q :: rest) h2]
    rfl

/-- C8: for a nonempty axis-aligned backbone given to the single-wire
placer, the returned route has `length_straights` equal to the sum of the
Euclidean lengths of the consecutive backbone segments (for an axis-aligned
segment the Euclidean length is `natAbs dx + natAbs dy`; on such backbones
the floating-point computation of the source is exact). -/
theorem placeSingleWireLength (p1 p2 : RPort) (pts : List RPt)
    (routeWidth : Option Int) (layerInfo : Option Nat)
    (hne : pts ≠ []) (hmh : List.Chain' manhattanSeg pts) :
    placeSingleWire p1 p2 pts routeWidth layerInfo false =
      .ok ⟨pts, eucSumManhattan pts, [(layerInfo.getD p1.layerInfo, 1)]⟩ := by
  match pts, hne with
  | p :: rest, _ =>
    have h : placeSingleWire p1 p2 (p :: rest) routeWidth layerInfo false =
        Except.ok ⟨p :: rest, sumSegLens (p :: rest),
          [(layerInfo.getD p1.layerInfo, 1)]⟩ := rfl
    rw [h, sumSegLens_manhattan (p :: rest) hmh]

/-- Witness for C8 at a concrete two-segment Manhattan backbone. -/
theorem placeSingleWireLengthWitness :
    placeSingleWire ⟨"e1", 1000, 3, ktransId⟩ ⟨"e2", 1000, 3, ktransId⟩
        [(0, 0), (5, 0), (5, 7)] none none false =
      .ok ⟨[(0, 0), (5, 0), (5, 7)], 12, [(3, 1)]⟩ :=
  (placeSingleWireLength ⟨"e1", 1000, 3, ktransId⟩ ⟨"e2", 1000, 3, ktransId⟩
      [(0, 0), (5, 0), (5, 7)] none none (by decide)
      (List.chain'_cons.mpr ⟨Or.inr rfl,
        List.chain'_cons.mpr ⟨Or.inl rfl, List.chain'_singleton _⟩⟩)).trans rfl

/-- C10: `route_bundle` with an empty `start_ports` sequence returns the
empty list immediately: for every routing function, placer, post-process
function, collision check and every remaining argument, the result is
`ok []` without raising — so none of those functions can have been invoked. -/
theorem routeBundleEmptyStartPorts
    (routingF : List RPort → List RPort → List Int → List (List RStep) →
      List (List RStep) → List MRouter)
    (placerF : PlacerFn)
    (postF : Option (List MRouter → List MRouter))
    (collisionF : ErrPolicy → List MRouter → List MRoute → Except RouteErr Unit)
    (endPorts : List RPort)
    (routeWidth : Option (Int ⊕ List Int))
    (onCollision onPlacerError : ErrPolicy)
    (starts ends : StepsArg)
    (startAngles endAngles : Option (Int ⊕ List Int)) :
    routeBundle routingF placerF postF collisionF [] endPorts routeWidth
      onCollision onPlacerError starts ends startAngles endAngles = .ok [] :=
  rfl

/-! ## Parametric-cell cache (`kcell.py`: `autocell`, `dict_to_frozen_set`)

Python argument values are modelled by the mutually defined `Value`,
`VList` (list or tuple contents) and `EList` (dict or frozenset entries).
A frozenset of dict entries is represented by its entry list sorted by key:
two frozensets built from dicts with the same items are then structurally
equal, matching Python set equality (dict keys are unique). -/

mutual
inductive Value where
  | int (n : Int)
  | str (s : String)
  | list (xs : VList)
  | tup (xs : VList)
  | dict (xs : EList)
  | fset (xs : EList)
deriving DecidableEq, Repr
inductive VList where
  | nil
  | cons (hd : Value) (tl : VList)
deriving DecidableEq, Repr
inductive EList where
  | nil
  | cons (key : String) (val : Value) (tl : EList)
deriving DecidableEq, Repr
end

mutual
/-- Python hashability of a value: ints, strings, tuples of hashables and
frozensets are hashable; lists and dicts are not. -/
def hashableV : Value → Bool
  | .int _ => true
  | .str _ => true
  | .list _ => false
  | .dict _ => false
  | .tup xs => hashableL xs
  | .fset xs => hashableE xs
def hashableL : VList → Bool
  | .nil => true
  | .cons x tl => hashableV x && hashableL tl
def hashableE : EList → Bool
  | .nil => true
  | .cons _ v tl => hashableV v && hashableE tl
end

/-- Code-point lexicographic comparison of character lists (Python string
comparison). -/
def charLtB : List Char → List Char → Bool
  | [], [] => false
  | [], _ :: _ => true
  | _ :: _, [] => false
  | a :: as, b :: bs =>
    if a.toNat < b.toNat then true
    else if b.toNat < a.toNat then false
    else charLtB as bs

/-- Python string `<`: lexicographic by Unicode code point. -/
def strLtB (a b : String) : Bool := charLtB a.data b.data

/-- Insert an entry into an entry list sorted by key. -/
def elistInsert (k : String) (v : Value) : EList → EList
  | .nil => .cons k v .nil
  | .cons k2 v2 tl =>
    if strLtB k k2 then .cons k v (.cons k2 v2 tl) else .cons k2 v2 (elistInsert k v tl)

/-- Sort an entry list by key (canonical representation of a frozenset of
dict entries; dict keys are unique). -/
def elistSort : EList → EList
  | .nil => .nil
  | .cons k v tl => elistInsert k v (elistSort tl)

/-- Shallow embedding of `dict_to_frozen_set` (`kcell.py` lines 1945-1946):
`frozenset(d.items())` hashes every entry, so a dict with an unhashable
value (a nested dict or list) raises `TypeError`; otherwise the frozenset of
the entries is produced. The conversion is *not* recursive. -/
def dictToFrozenSet (xs : EList) : Except Unit Value :=
  if hashableE xs then .ok (.fset (elistSort xs)) else .error ()

/-- The per-argument canonicalization of `wrapper_autocell` (`kcell.py`
lines 1901-1903): only arguments that *are* dicts are converted, and only at
top level; everything else (lists included) is passed through unchanged. -/
def canonParamSource : Value → Except Unit Value
  | .dict xs => dictToFrozenSet xs
  | v => .ok v

def canonParams : List (String × Value) → Except Unit (List (String × Value))
  | [] => .ok []
  | (k, v) :: rest =>
    match canonParamSource v with
    | .error e => .error e
    | .ok v2 =>
      match canonParams rest with
      | .error e => .error e
      | .ok rest2 => .ok ((k, v2) :: rest2)

/-- Insertion into a name-sorted parameter list. -/
def pairsInsert (e : String × Value) : List (String × Value) → List (String × Value)
  | [] => [e]
  | f :: fs => if strLtB e.1 f.1 then e :: f :: fs else f :: pairsInsert e fs

/-- Name-sorted parameter list, as `cachetools.keys.hashkey` sorts the
keyword arguments (parameter names are unique). -/
def sortPairs (xs : List (String × Value)) : List (String × Value) :=
  xs.foldr pairsInsert []

/-- The cache key of a call (`kcell.py` lines 1901-1905 together with
`cachetools.cached`): canonicalize the arguments (top-level dicts to
frozensets), then hash the name-sorted keyword tuple — a `TypeError` is
raised if any remaining value is unhashable (for example a list). -/
def cacheKey (params : List (String × Value)) :
    Except Unit (List (String × Value)) :=
  match canonParams params with
  | .error e => .error e
  | .ok canon =>
    let key := sortPairs canon
    if key.all (fun e => hashableV e.2) then .ok key else .error ()

/-- The decorator cache: keys with the identity of the cell returned for
them, and the next fresh cell identity. -/
structure AutocellCache where
  entries : List (List (String × Value) × Nat)
  nextId : Nat
deriving DecidableEq, Repr

def cacheLookup (entries : List (List (String × Value) × Nat))
    (key : List (String × Value)) : Option Nat :=
  match entries with
  | [] => none
  | e :: rest => if e.1 = key then some e.2 else cacheLookup rest key

/-- Shallow embedding of `wrapper_autocell` (`kcell.py` lines 1889-1934): on
a cache hit the cached cell is returned; on a miss the wrapped function is
invoked and produces a fresh cell identity (a locked return value is
duplicated first, so every miss yields a new identity), which is stored
under the key. -/
def wrapperAutocell (params : List (String × Value)) (st : AutocellCache) :
    Except Unit (Nat × AutocellCache) :=
  match cacheKey params with
  | .error e => .error e
  | .ok key =>
    match cacheLookup st.entries key with
    | some i => .ok (i, st)
    | none => .ok (st.nextId, ⟨st.entries ++ [(key, st.nextId)], st.nextId + 1⟩)

mutual
/-- Formalization of the *claim's* canonicalization, following the spec's
words rather than the source: recursively, every dict becomes the frozenset
of its entries and every list becomes a tuple. -/
def specCanonV : Value → Value
  | .int n => .int n
  | .str s => .str s
  | .list xs => .tup (specCanonL xs)
  | .tup xs => .tup (specCanonL xs)
  | .dict xs => .fset (elistSort (specCanonE xs))
  | .fset xs => .fset (elistSort (specCanonE xs))
def specCanonL : VList → VList
  | .nil => .nil
  | .cons x tl => .cons (specCanonV x) (specCanonL tl)
def specCanonE : EList → EList
  | .nil => .nil
  | .cons k v tl => .cons k (specCanonV v) (specCanonE tl)
end

/-- Arguments of a call, canonicalized per the claim's (spec's) rule. -/
def specCanonParams (params : List (String × Value)) : List (String × Value) :=
  sortPairs (params.map (fun e => (e.1, specCanonV e.2)))

/-- C3 (counterexample): the arguments `(a := (1,))` and `(a := [1])` are
equal modulo the claim's canonicalization (list and tuple both canonicalize
to a tuple), yet calling the decorated function with the tuple returns a
cell while the subsequent call with the list raises a `TypeError` (the list
is unhashable and the cache does not canonicalize it) — it does not return
the same cell identity. -/
theorem autocellCanonCex :
    specCanonParams [("a", Value.tup (.cons (.int 1) .nil))] =
      specCanonParams [("a", Value.list (.cons (.int 1) .nil))] ∧
    wrapperAutocell [("a", Value.tup (.cons (.int 1) .nil))] ⟨[], 0⟩ =
      .ok (0, ⟨[([("a", Value.tup (.cons (.int 1) .nil))], 0)], 1⟩) ∧
    wrapperAutocell [("a", Value.list (.cons (.int 1) .nil))]
        ⟨[([("a", Value.tup (.cons (.int 1) .nil))], 0)], 1⟩ = .error () :=
  ⟨rfl, rfl, rfl⟩

/-- C3 (amended): starting from an empty cache, two successive successful
calls of a decorated function return the same cell identity exactly when
their cache keys agree, where the cache key canonicalizes only top-level
dict arguments into frozensets of their entries (shallowly, not
recursively) and requires every value to be hashable — dict key order does
not affect the identity, while list-valued arguments (and dicts containing
unhashable values) raise a `TypeError` instead of being canonicalized. -/
theorem autocellCacheAmended (p1 p2 : List (String × Value))
    (id1 id2 : Nat) (st1 st2 : AutocellCache)
    (h1 : wrapperAutocell p1 ⟨[], 0⟩ = .ok (id1, st1))
    (h2 : wrapperAutocell p2 st1 = .ok (id2, st2)) :
    id1 = id2 ↔ cacheKey p1 = cacheKey p2 := by
  match hk1 : cacheKey p1 with
  | .error e =>
    simp only [wrapperAutocell, hk1] at h1
    exact Except.noConfusion h1
  | .ok key1 =>
    simp only [wrapperAutocell, hk1, cacheLookup, List.nil_append,
      Except.ok.injEq, Prod.mk.injEq] at h1
    obtain ⟨hid1, hst1⟩ := h1
    match hk2 : cacheKey p2 with
    | .error e =>
      simp only [wrapperAutocell, hk2] at h2
      exact Except.noConfusion h2
    | .ok key2 =>
      simp only [wrapperAutocell, hk2] at h2
      rw [← hst1] at h2
      by_cases heq : key1 = key2
      · have hl2 : cacheLookup [(key1, 0)] key2 = some 0 := by
          simp [cacheLookup, heq]
        simp only [hl2, Except.ok.injEq, Prod.mk.injEq] at h2
        obtain ⟨hid2, _⟩ := h2
        constructor
        · intro _
          rw [heq]
        · intro _
          omega
      · have hl2 : cacheLookup [(key1, 0)] key2 = none := by
          simp [cacheLookup, heq]
        simp only [hl2, Except.ok.injEq, Prod.mk.injEq] at h2
        obtain ⟨hid2, _⟩ := h2
        constructor
        · intro hid
          exfalso
          omega
        · intro hk
          injection hk with hk2eq
          exact absurd hk2eq heq

/-- Witness for C3: two successive calls with distinct integer arguments
yield distinct identities, matching their distinct cache keys. -/
theorem autocellCacheAmendedWitness :
    ((0 : Nat) = 1 ↔
      cacheKey [("a", Value.int 1)] = cacheKey [("a", Value.int 2)]) :=
  autocellCacheAmended [("a", Value.int 1)] [("a", Value.int 2)] 0 1
    ⟨[([("a", Value.int 1)], 0)], 1⟩
    ⟨[([("a", Value.int 1)], 0), ([("a", Value.int 2)], 1)], 2⟩ rfl rfl

/-- Companion check: a dict argument yields the same cache key whatever its
insertion order, because the frozenset of its entries is order-free (here in
canonical key-sorted representation). -/
theorem cacheKeyDictOrderIrrelevant :
    cacheKey [("a", Value.dict (.cons "x" (.int 1) (.cons "y" (.int 2) .nil)))] =
      cacheKey [("a", Value.dict (.cons "y" (.int 2) (.cons "x" (.int 1) .nil)))] := by
  rfl
